import Mathlib

/-!
Shallow embedding of the table-generation engine of the repository
(`cola-io/koffee`). Go structs from `k8s.io/api` are modelled as Lean
structures that keep exactly the fields the engine reads; `metav1.Time`
values are modelled as `Nat` (0 is the zero time, `Before` is `<`),
pointers as `Option`, and Go `int32`/`int` counters as `Int`.
All definitions are translated from the source files under `src/`;
the only exception, marked in its doc comment, is the external library
helper `duration.HumanDuration`.
-/

namespace Koffee

/-- Cell of a table row: Go `interface{}` cells hold strings or `int64` here. -/
inductive Cell where
  | str : String → Cell
  | int : Int → Cell
deriving DecidableEq, Repr

/-- Model of `metav1.TableRowCondition`: all four fields are strings. -/
structure TableRowCondition where
  type : String
  status : String
  reason : String
  message : String
deriving DecidableEq, Repr

/-- Model of `metav1.TableRow` (the fields the engine writes). -/
structure TableRow where
  cells : List Cell
  conditions : List TableRowCondition
deriving DecidableEq, Repr

/-- Model of `metav1.TableColumnDefinition`. `priority` is Go `int32`. -/
structure TableColumnDefinition where
  name : String
  type : String
  format : String
  description : String
  priority : Int
deriving DecidableEq, Repr

/-- Model of `pod.DeletionTimestamp.IsZero()`: a nil `*metav1.Time` pointer or the
zero time are both "zero". -/
def mIsZero : Option Nat → Bool
  | none => true
  | some t => t == 0

/-! ## CertificateSigningRequest status (`extractCSRStatus`, part_000) -/

/-- Model of `certificatesv1.CertificateSigningRequestCondition` (fields read by the
engine: `Type` and, for C10, `Status`). -/
structure CSRCondition where
  type : String
  status : String
deriving DecidableEq, Repr

/-- Model of `certificatesv1.CertificateSigningRequest` status fields the engine
reads: the condition list and the certificate payload (only its length is
ever tested, so the bytes are modelled as a `String`). -/
structure CertificateSigningRequest where
  conditions : List CSRCondition
  certificate : String
deriving DecidableEq, Repr

/-- Body of the `switch c.Type` loop of `extractCSRStatus`: accumulates the
`(approved, denied, failed)` flags. `certificatesv1.CertificateApproved`,
`CertificateDenied` and `CertificateFailed` are the strings "Approved",
"Denied" and "Failed". -/
def csrFlagsStep (acc : Bool × Bool × Bool) (c : CSRCondition) : Bool × Bool × Bool :=
  if c.type == "Approved" then (true, acc.2.1, acc.2.2)
  else if c.type == "Denied" then (acc.1, true, acc.2.2)
  else if c.type == "Failed" then (acc.1, acc.2.1, true)
  else acc

/-- Model of `extractCSRStatus` (part_000 lines 2087-2115). -/
def extractCSRStatus (csr : CertificateSigningRequest) : String :=
  let flags := csr.conditions.foldl csrFlagsStep (false, false, false)
  let status := if flags.2.1 then "Denied" else if flags.1 then "Approved" else "Pending"
  let status := if flags.2.2 then status ++ ",Failed" else status
  if csr.certificate.length > 0 then status ++ ",Issued" else status

/-! ## Job status (`printJob` status cell, `hasJobCondition`, part_000) -/

/-- Model of `batchv1.JobCondition` (fields read: `Type`, `Status`). -/
structure JobCondition where
  type : String
  status : String
deriving DecidableEq, Repr

/-- The fields of `batchv1.Job` read by the status-cell derivation of
`printJob` (lines 1239-1252). -/
structure Job where
  name : String
  deletionTimestamp : Option Nat
  conditions : List JobCondition
deriving DecidableEq, Repr

/-- Model of `hasJobCondition` (part_000 lines 1147-1154): returns at the first
condition whose type matches, reporting whether its status is "True". -/
def hasJobCondition (conds : List JobCondition) (t : String) : Bool :=
  match conds.find? (fun c => c.type == t) with
  | some c => c.status == "True"
  | none => false

/-- The `status` computation of `printJob` (part_000 lines 1239-1252).
`batchv1.JobComplete/JobFailed/JobSuspended/JobFailureTarget` are the
strings "Complete", "Failed", "Suspended", "FailureTarget". -/
def printJobStatus (obj : Job) : String :=
  if hasJobCondition obj.conditions "Complete" then "Complete"
  else if hasJobCondition obj.conditions "Failed" then "Failed"
  else if !(mIsZero obj.deletionTimestamp) then "Terminating"
  else if hasJobCondition obj.conditions "Suspended" then "Suspended"
  else if hasJobCondition obj.conditions "FailureTarget" then "FailureTarget"
  else "Running"

/-! Helper lemmas shared by the CSR claims. -/

theorem csrFlags_foldl (l : List CSRCondition) (a d f : Bool) :
    l.foldl csrFlagsStep (a, d, f) =
      (a || l.any (fun c => c.type == "Approved"),
       d || l.any (fun c => c.type == "Denied"),
       f || l.any (fun c => c.type == "Failed")) := by
  induction l generalizing a d f with
  | nil => simp
  | cons c rest ih =>
    have hstep : csrFlagsStep (a, d, f) c =
        (a || (c.type == "Approved"), d || (c.type == "Denied"),
         f || (c.type == "Failed")) := by
      unfold csrFlagsStep
      by_cases h1 : c.type == "Approved" <;> by_cases h2 : c.type == "Denied" <;>
        by_cases h3 : c.type == "Failed" <;> simp_all
    rw [List.foldl_cons, hstep, ih]
    simp [Bool.or_assoc]

/-- Normal form of `extractCSRStatus` in terms of mere presence of the
condition types in the list. -/
theorem extractCSRStatus_eq (csr : CertificateSigningRequest) :
    extractCSRStatus csr =
      (if csr.conditions.any (fun c => c.type == "Denied") then "Denied"
       else if csr.conditions.any (fun c => c.type == "Approved") then "Approved"
       else "Pending")
      ++ (if csr.conditions.any (fun c => c.type == "Failed") then ",Failed" else "")
      ++ (if csr.certificate.length > 0 then ",Issued" else "") := by
  unfold extractCSRStatus
  rw [csrFlags_foldl]
  simp only [Bool.false_or]
  by_cases hd : csr.conditions.any (fun c => c.type == "Denied") <;>
    by_cases ha : csr.conditions.any (fun c => c.type == "Approved") <;>
      by_cases hf : csr.conditions.any (fun c => c.type == "Failed") <;>
        by_cases hi : csr.certificate.length > 0 <;>
          simp [hd, ha, hf, hi]

/-- C6: For every CertificateSigningRequest, the derived status string starts
with "Denied" if a Denied condition is present (taking precedence over
Approved), else "Approved" if an Approved condition is present, else
"Pending"; ",Failed" is appended exactly when a Failed condition is present,
and ",Issued" is appended exactly when the certificate payload is
non-empty. -/
theorem claim_C6_csr_status (csr : CertificateSigningRequest) :
    extractCSRStatus csr =
      (if csr.conditions.any (fun c => c.type == "Denied") then "Denied"
       else if csr.conditions.any (fun c => c.type == "Approved") then "Approved"
       else "Pending")
      ++ (if csr.conditions.any (fun c => c.type == "Failed") then ",Failed" else "")
      ++ (if csr.certificate.length > 0 then ",Issued" else "") :=
  extractCSRStatus_eq csr

/-- C10: the CSR status derivation classifies by the mere presence of a
condition's type and never inspects the condition's `Status` field: two CSRs
whose condition lists carry the same types in the same order (statuses
arbitrary) and whose certificate payloads have the same length get the same
status string. -/
theorem claim_C10_csr_status_field_ignored (c1 c2 : CertificateSigningRequest)
    (htypes : c1.conditions.map (fun c => c.type) = c2.conditions.map (fun c => c.type))
    (hcert : c1.certificate.length = c2.certificate.length) :
    extractCSRStatus c1 = extractCSRStatus c2 := by
  rw [extractCSRStatus_eq, extractCSRStatus_eq, hcert]
  have hany : ∀ (l1 l2 : List CSRCondition) (t : String),
      l1.map (fun c => c.type) = l2.map (fun c => c.type) →
      l1.any (fun c => c.type == t) = l2.any (fun c => c.type == t) := by
    intro l1
    induction l1 with
    | nil =>
      intro l2 t h
      cases l2 with
      | nil => rfl
      | cons b bs => simp at h
    | cons a as ih =>
      intro l2 t h
      cases l2 with
      | nil => simp at h
      | cons b bs =>
        simp only [List.map_cons, List.cons.injEq] at h
        simp only [List.any_cons, h.1, ih bs t h.2]
  rw [hany c1.conditions c2.conditions "Denied" htypes,
    hany c1.conditions c2.conditions "Approved" htypes,
    hany c1.conditions c2.conditions "Failed" htypes]

/-- Witness for C10: a Denied condition whose status is "False" is treated
exactly like one whose status is "True" (and the status string is
"Denied"). -/
theorem claim_C10_witness :
    ([⟨"Denied", "False"⟩] : List CSRCondition).map (fun c => c.type)
        = ([⟨"Denied", "True"⟩] : List CSRCondition).map (fun c => c.type)
      ∧ ("" : String).length = ("" : String).length
      ∧ extractCSRStatus ⟨[⟨"Denied", "False"⟩], ""⟩
          = extractCSRStatus ⟨[⟨"Denied", "True"⟩], ""⟩
      ∧ extractCSRStatus ⟨[⟨"Denied", "False"⟩], ""⟩ = "Denied" :=
  ⟨rfl, rfl,
    claim_C10_csr_status_field_ignored ⟨[⟨"Denied", "False"⟩], ""⟩
      ⟨[⟨"Denied", "True"⟩], ""⟩ rfl rfl, by decide⟩

/-! ## Claim C5: Job status precedence -/

/-- Spec-side view of the Job status derivation: the ordered list of
(label, test) pairs, first match wins, default "Running". The condition
tests use the code's `hasJobCondition`, which examines only the first
condition entry of the given type. -/
def jobStatusTests (job : Job) : List (String × Bool) :=
  [("Complete", hasJobCondition job.conditions "Complete"),
   ("Failed", hasJobCondition job.conditions "Failed"),
   ("Terminating", !(mIsZero job.deletionTimestamp)),
   ("Suspended", hasJobCondition job.conditions "Suspended"),
   ("FailureTarget", hasJobCondition job.conditions "FailureTarget")]

/-- First label whose test is true; "Running" when none is. -/
def firstMatch : List (String × Bool) → String
  | [] => "Running"
  | p :: rest => if p.2 then p.1 else firstMatch rest

/-- C5 counterexample: the claim reads "Complete condition true ⇒ Complete".
A Job whose condition list is [{Complete, False}, {Complete, True}] does
carry a Complete condition with status True, yet `printJob` derives
"Running", because `hasJobCondition` stops at the first condition of the
requested type (here with status False). -/
theorem claim_C5_counterexample :
    (Job.mk "j" none [⟨"Complete", "False"⟩, ⟨"Complete", "True"⟩]).conditions.any
        (fun c => c.type == "Complete" && c.status == "True") = true
      ∧ printJobStatus (Job.mk "j" none [⟨"Complete", "False"⟩, ⟨"Complete", "True"⟩])
          = "Running"
      ∧ ("Running" : String) ≠ "Complete" := by
  refine ⟨by decide, by decide, by decide⟩

/-- C5 (amended): `printJob` derives the status cell by testing, in the
fixed order Complete, Failed, Terminating (deletion timestamp set),
Suspended, FailureTarget and returning the first match (else "Running"),
where each condition test examines only the first condition entry of the
given type and requires its status to be "True"; in particular a Job with
Complete and Suspended conditions true yields "Complete". -/
theorem claim_C5_job_status_precedence :
    (∀ job : Job, printJobStatus job = firstMatch (jobStatusTests job))
      ∧ printJobStatus
          (Job.mk "j" none [⟨"Complete", "True"⟩, ⟨"Suspended", "True"⟩]) = "Complete" := by
  constructor
  · intro job
    unfold printJobStatus jobStatusTests firstMatch
    rfl
  · decide

/-! ## Handler registry and table generator (part_000 lines 164-312)

`reflect.Value`/`reflect.Type` introspection is modelled by a signature
descriptor carried next to the callable function: `isFunc` is
`Kind() == reflect.Func`, `inTypes`/`outTypes` list the parameter and result
type names (`NumIn`/`NumOut` are their lengths, `In(i)`/`Out(i)` their
entries). Go type identity is modelled by the type-name string. -/

structure RTypeSig where
  isFunc : Bool
  inTypes : List String
  outTypes : List String
deriving DecidableEq, Repr

/-- A print-handler argument: its reflection signature plus the behavior of
`printFunc.Call` on a (modelled) runtime object. -/
structure PrintFn (Obj : Type) where
  sig : RTypeSig
  run : Obj → Except String (List TableRow)

/-- A (modelled) `runtime.Object` as `GenerateTable` sees it: its concrete
type name, whether `meta.ListAccessor` succeeds on it (list-style object),
and the accessor metadata. -/
structure RObject where
  typeName : String
  isList : Bool
  resourceVersion : String
  continueToken : String
  remainingItemCount : Option Int
deriving DecidableEq, Repr

/-- Model of `handlerEntry` (part_000 lines 192-195). -/
structure HandlerEntry where
  columnDefinitions : List TableColumnDefinition
  printFunc : PrintFn RObject

/-- Model of `HumanReadableGenerator`: the `handlerMap` keyed by the reflect type of
the handler's parameter, modelled as an association list. -/
structure HumanReadableGenerator where
  handlerMap : List (String × HandlerEntry)

/-- Model of `metav1.Table` (fields written by `GenerateTable`). -/
structure Table where
  resourceVersion : String
  continueToken : String
  remainingItemCount : Option Int
  columnDefinitions : List TableColumnDefinition
  rows : List TableRow

/-- Model of `ValidateRowPrintHandlerFunc` (part_000 lines 297-312). The `%#v`
rendering of the offending value in the first message is elided. -/
def ValidateRowPrintHandlerFunc (sig : RTypeSig) : Except String Unit :=
  if !sig.isFunc then
    Except.error "invalid print handler. It is not a function"
  else if sig.inTypes.length != 1 || sig.outTypes.length != 2 then
    Except.error "invalid print handler.Must accept 1 parameters and return 2 value"
  else if sig.outTypes.getD 0 "" != "[]metav1.TableRow" || sig.outTypes.getD 1 "" != "error" then
    Except.error ("invalid print handler. The expected signature is: func handler(obj "
      ++ sig.inTypes.getD 0 "" ++ ") ([]metav1.TableRow, error)")
  else Except.ok ()

/-- Model of `TableHandler` (part_000 lines 267-286). Go mutates the receiver; the
model returns the updated generator together with the error value. -/
def TableHandler (h : HumanReadableGenerator)
    (columnDefinitions : List TableColumnDefinition) (printFunc : PrintFn RObject) :
    HumanReadableGenerator × Except String Unit :=
  match ValidateRowPrintHandlerFunc printFunc.sig with
  | Except.error e => (h, Except.error e)
  | Except.ok _ =>
    let entry : HandlerEntry := ⟨columnDefinitions, printFunc⟩
    let objType := printFunc.sig.inTypes.getD 0 ""
    if (h.handlerMap.lookup objType).isSome then
      (h, Except.error ("registered duplicate printer for " ++ objType))
    else
      (⟨h.handlerMap ++ [(objType, entry)]⟩, Except.ok ())

/-- Model of `GenerateTable` (part_000 lines 225-263). -/
def GenerateTable (h : HumanReadableGenerator) (obj : RObject) : Except String Table :=
  match h.handlerMap.lookup obj.typeName with
  | none => Except.error ("no table handler registered for this type " ++ obj.typeName)
  | some handler =>
    match handler.printFunc.run obj with
    | Except.error e => Except.error e
    | Except.ok rows =>
      let columns := handler.columnDefinitions.filter (fun c => c.priority == 0)
      if obj.isList then
        Except.ok ⟨obj.resourceVersion, obj.continueToken, obj.remainingItemCount,
          columns, rows⟩
      else
        Except.ok ⟨obj.resourceVersion, "", none, columns, rows⟩

/-- C3: registering a print handler whose function does not take exactly one
parameter and return exactly ([]TableRow, error) — here a three-parameter
function — fails inside `TableHandler` with the invalid-handler-signature
error, and the registry map is returned unchanged. -/
theorem claim_C3_invalid_signature_rejected (h : HumanReadableGenerator)
    (cols : List TableColumnDefinition) (fn : PrintFn RObject)
    (hfunc : fn.sig.isFunc = true) (harity : fn.sig.inTypes.length = 3) :
    TableHandler h cols fn =
      (h, Except.error "invalid print handler.Must accept 1 parameters and return 2 value") := by
  unfold TableHandler ValidateRowPrintHandlerFunc
  simp [hfunc, harity]

/-- Witness for C3 at a concrete generator and three-parameter function. -/
theorem claim_C3_witness :
    (PrintFn.mk ⟨true, ["a", "b", "c"], ["[]metav1.TableRow", "error"]⟩
        (fun _ => Except.ok []) : PrintFn RObject).sig.isFunc = true
      ∧ (PrintFn.mk ⟨true, ["a", "b", "c"], ["[]metav1.TableRow", "error"]⟩
          (fun _ => Except.ok []) : PrintFn RObject).sig.inTypes.length = 3
      ∧ TableHandler ⟨[]⟩ []
          (PrintFn.mk ⟨true, ["a", "b", "c"], ["[]metav1.TableRow", "error"]⟩
            (fun _ => Except.ok []))
        = (⟨[]⟩, Except.error "invalid print handler.Must accept 1 parameters and return 2 value") :=
  ⟨rfl, rfl,
    claim_C3_invalid_signature_rejected ⟨[]⟩ []
      (PrintFn.mk ⟨true, ["a", "b", "c"], ["[]metav1.TableRow", "error"]⟩
        (fun _ => Except.ok [])) rfl rfl⟩

/-- C7: when the input object's type has a registered handler and a table is
returned, its column definitions are exactly the handler's priority-0
columns in original registration order, and no column with priority ≠ 0 is
ever emitted. -/
theorem claim_C7_priority_zero_columns (h : HumanReadableGenerator) (obj : RObject)
    (entry : HandlerEntry) (t : Table)
    (hlook : h.handlerMap.lookup obj.typeName = some entry)
    (hgen : GenerateTable h obj = Except.ok t) :
    t.columnDefinitions = entry.columnDefinitions.filter (fun c => c.priority == 0)
      ∧ ∀ c ∈ t.columnDefinitions, c.priority = 0 := by
  have hmain : t.columnDefinitions
      = entry.columnDefinitions.filter (fun c => c.priority == 0) := by
    unfold GenerateTable at hgen
    rw [hlook] at hgen
    dsimp only at hgen
    cases hrun : entry.printFunc.run obj with
    | error e => rw [hrun] at hgen; exact absurd hgen (by simp)
    | ok rows =>
      rw [hrun] at hgen
      by_cases hl : obj.isList = true
      · simp only [hl, if_true] at hgen
        cases hgen
        rfl
      · simp only [Bool.not_eq_true] at hl
        simp only [hl, Bool.false_eq_true, if_false] at hgen
        cases hgen
        rfl
  refine ⟨hmain, ?_⟩
  intro c hc
  rw [hmain] at hc
  have := List.of_mem_filter hc
  simpa using this

/-- Witness for C7 at a concrete registry with mixed-priority columns. -/
theorem claim_C7_witness :
    (HumanReadableGenerator.mk
        [("PodList",
          ⟨[⟨"Name", "string", "name", "", 0⟩, ⟨"IP", "string", "", "", 1⟩,
            ⟨"Age", "string", "", "", 0⟩],
           ⟨⟨true, ["PodList"], ["[]metav1.TableRow", "error"]⟩,
            fun _ => Except.ok []⟩⟩)]).handlerMap.lookup "PodList"
        = some ⟨[⟨"Name", "string", "name", "", 0⟩, ⟨"IP", "string", "", "", 1⟩,
            ⟨"Age", "string", "", "", 0⟩],
           ⟨⟨true, ["PodList"], ["[]metav1.TableRow", "error"]⟩,
            fun _ => Except.ok []⟩⟩
      ∧ (Table.mk "rv1" "tok" none
            [⟨"Name", "string", "name", "", 0⟩, ⟨"Age", "string", "", "", 0⟩] []).columnDefinitions
          = List.filter (fun c => c.priority == 0)
              [⟨"Name", "string", "name", "", 0⟩, ⟨"IP", "string", "", "", 1⟩,
               ⟨"Age", "string", "", "", 0⟩]
        ∧ ∀ c ∈ (Table.mk "rv1" "tok" none
            [⟨"Name", "string", "name", "", 0⟩, ⟨"Age", "string", "", "", 0⟩] []).columnDefinitions,
            c.priority = 0 :=
  ⟨rfl,
    claim_C7_priority_zero_columns
      (HumanReadableGenerator.mk
        [("PodList",
          ⟨[⟨"Name", "string", "name", "", 0⟩, ⟨"IP", "string", "", "", 1⟩,
            ⟨"Age", "string", "", "", 0⟩],
           ⟨⟨true, ["PodList"], ["[]metav1.TableRow", "error"]⟩,
            fun _ => Except.ok []⟩⟩)])
      ⟨"PodList", true, "rv1", "tok", none⟩
      ⟨[⟨"Name", "string", "name", "", 0⟩, ⟨"IP", "string", "", "", 1⟩,
        ⟨"Age", "string", "", "", 0⟩],
       ⟨⟨true, ["PodList"], ["[]metav1.TableRow", "error"]⟩,
        fun _ => Except.ok []⟩⟩
      (Table.mk "rv1" "tok" none
        [⟨"Name", "string", "name", "", 0⟩, ⟨"Age", "string", "", "", 0⟩] [])
      rfl rfl⟩

/-! ## Truncated-list formatting (part_000 lines 894-921) -/

/-- Model of `discoveryv1.Endpoint` (field read: `Addresses`). -/
structure DiscoveryEndpoint where
  addresses : List String
deriving DecidableEq, Repr

/-- Model of `listWithMoreString` (part_000 lines 912-921). `count` and `max` are Go
ints; the `%d` argument `count-max` is computed in `Int`. -/
def listWithMoreString (list : List String) (more : Bool) (count mx : Nat) : String :=
  let ret := String.intercalate "," list
  if more then
    let overflow : Int := (count : Int) - (mx : Int)
    s!"{ret} + {overflow} more..."
  else if ret == "" then "<unset>"
  else ret

/-- Body of the per-address loop of `formatDiscoveryEndpoints`
(part_000 lines 899-908), with `maximum = 3`: state is (list, more, count). -/
def fdeStep (acc : List String × Bool × Nat) (address : String) : List String × Bool × Nat :=
  if acc.1.length < 3 then (acc.1 ++ [address], acc.2.1, acc.2.2 + 1)
  else if acc.1.length == 3 then (acc.1, true, acc.2.2 + 1)
  else (acc.1, acc.2.1, acc.2.2 + 1)

/-- Model of `formatDiscoveryEndpoints` (part_000 lines 894-910). -/
def formatDiscoveryEndpoints (endpoints : List DiscoveryEndpoint) : String :=
  let acc := endpoints.foldl (fun acc e => e.addresses.foldl fdeStep acc) ([], false, 0)
  listWithMoreString acc.1 acc.2.1 acc.2.2 3

/-- The nested per-endpoint/per-address loop is the plain loop over the
concatenation of all address lists. -/
theorem fde_foldl_join (endpoints : List DiscoveryEndpoint)
    (acc : List String × Bool × Nat) :
    endpoints.foldl (fun acc e => e.addresses.foldl fdeStep acc) acc
      = ((endpoints.map (fun e => e.addresses)).flatten).foldl fdeStep acc := by
  induction endpoints generalizing acc with
  | nil => rfl
  | cons e rest ih =>
    simp only [List.foldl_cons, List.map_cons, List.flatten_cons, List.foldl_append]
    exact ih _

/-- Characterization of the truncation loop: starting from a kept prefix of
at most 3 elements, it keeps the first 3 of the concatenation, raises the
overflow flag exactly when more than 3 elements were seen in total, and
counts every element. -/
theorem fde_foldl_spec (as : List String) (l : List String) (m : Bool) (c : Nat)
    (hl : l.length ≤ 3) :
    as.foldl fdeStep (l, m, c)
      = ((l ++ as).take 3, m || decide (4 ≤ l.length + as.length), c + as.length) := by
  induction as generalizing l m c with
  | nil =>
    simp only [List.foldl_nil, List.append_nil, List.length_nil, Nat.add_zero]
    rw [List.take_of_length_le hl]
    have : ¬ (4 ≤ l.length) := by omega
    simp [this]
  | cons a rest ih =>
    simp only [List.foldl_cons]
    by_cases hlt : l.length < 3
    · have hstep : fdeStep (l, m, c) a = (l ++ [a], m, c + 1) := by
        unfold fdeStep
        simp [hlt]
      rw [hstep, ih (l ++ [a]) m (c + 1) (by simp; omega)]
      simp only [List.append_assoc, List.singleton_append, List.length_append,
        List.length_cons, List.length_nil, Prod.mk.injEq]
      refine ⟨by trivial, ?_, by omega⟩
      congr 1
      simp only [decide_eq_decide]
      omega
    · have heq : l.length = 3 := by omega
      have hstep : fdeStep (l, m, c) a = (l, true, c + 1) := by
        unfold fdeStep
        simp [hlt, heq]
      rw [hstep, ih l true (c + 1) hl]
      have htake : ∀ tail : List String, (l ++ tail).take 3 = l := by
        intro tail
        rw [List.take_append_of_le_length (by omega), ← heq, List.take_length]
      rw [htake rest, htake (a :: rest)]
      simp only [List.length_cons, Prod.mk.injEq]
      have h4 : 4 ≤ l.length + (rest.length + 1) := by omega
      refine ⟨by trivial, by simp [h4], by omega⟩

/-- C8: truncated-list formatting keeps at most 3 leading elements in
original order and, when more exist, appends " + n more..." with n the
count of elements beyond the kept prefix; an empty rendering yields
"<unset>" via `listWithMoreString`. Concretely a list of 5 endpoint
addresses renders as "a,b,c + 2 more...". -/
theorem claim_C8_truncated_list :
    (∀ endpoints : List DiscoveryEndpoint,
      formatDiscoveryEndpoints endpoints =
        (let as := (endpoints.map (fun e => e.addresses)).flatten
         if 4 ≤ as.length then
           let overflow : Int := (as.length : Int) - 3
           let kept := String.intercalate "," (as.take 3)
           s!"{kept} + {overflow} more..."
         else if String.intercalate "," as == "" then "<unset>"
         else String.intercalate "," as))
      ∧ formatDiscoveryEndpoints [⟨["a", "b"]⟩, ⟨["c", "d", "e"]⟩] = "a,b,c + 2 more..." := by
  constructor
  · intro endpoints
    unfold formatDiscoveryEndpoints
    rw [fde_foldl_join, fde_foldl_spec _ [] false 0 (by simp)]
    simp only [List.nil_append, List.length_nil, Nat.zero_add, Bool.false_or]
    unfold listWithMoreString
    simp only [decide_eq_true_eq]
    by_cases hlen : 4 ≤ ((endpoints.map (fun e => e.addresses)).flatten).length
    · rw [if_pos hlen, if_pos hlen]
      norm_num
    · have hle : ((endpoints.map (fun e => e.addresses)).flatten).length ≤ 3 := by omega
      rw [List.take_of_length_le hle, if_neg hlen, if_neg hlen]
  · decide

/-! ## Age formatting helpers (part_000 lines 923-941) -/

/-- Modelled from the spec: `duration.HumanDuration` lives in
`k8s.io/apimachinery/pkg/util/duration`, outside this repository; the spec
describes its output only as "a coarse human-readable approximation
(days/hours/minutes, largest two non-zero units)". Durations are modelled
in seconds. No claim inspects the inside of this string. -/
def humanDuration (seconds : Int) : String :=
  if seconds < 0 then "0s"
  else
    let s := seconds.toNat
    let d := s / 86400
    let h := s % 86400 / 3600
    let m := s % 3600 / 60
    if d > 0 then s!"{d}d{h}h"
    else if h > 0 then s!"{h}h{m}m"
    else s!"{m}m"

/-- Model of `translateTimestampSince` (part_000 lines 933-941); `time.Since` is
`now - timestamp`. -/
def translateTimestampSince (now timestamp : Nat) : String :=
  if timestamp == 0 then "<unknown>"
  else humanDuration ((now : Int) - (timestamp : Int))

/-! ## FlowSchema listing (part_000 lines 142-163 and 2592-2628) -/

/-- Model of `flowcontrolv1.FlowSchemaCondition` (fields read: `Type`, `Status`). -/
structure FSCondition where
  type : String
  status : String
deriving DecidableEq, Repr

/-- The fields of `flowcontrolv1.FlowSchema` read by `printFlowSchema` and
by the `FlowSchemaSequence` comparison. `matchingPrecedence` is Go
`int32`. -/
structure FlowSchema where
  name : String
  creationTimestamp : Nat
  plName : String
  matchingPrecedence : Int
  distinguisherMethod : Option String
  conditions : List FSCondition
deriving DecidableEq, Repr

/-- Model of `FlowSchemaSequence.Less` (part_000 lines 152-159). -/
def fsLess (a b : FlowSchema) : Bool :=
  if a.matchingPrecedence ≠ b.matchingPrecedence then
    decide (a.matchingPrecedence < b.matchingPrecedence)
  else decide (a.name < b.name)

/-- Model of `printFlowSchema` (part_000 lines 2592-2611).
`flowcontrolv1.FlowSchemaConditionDangling` is the string "Dangling"; the
condition loop stops at the first matching type. -/
def printFlowSchema (now : Nat) (obj : FlowSchema) : List TableRow :=
  let distinguisherMethod := match obj.distinguisherMethod with
    | some t => t
    | none => "<none>"
  let badPLRef := match obj.conditions.find? (fun c => c.type == "Dangling") with
    | some c => c.status
    | none => "?"
  [⟨[Cell.str obj.name, Cell.str obj.plName, Cell.int obj.matchingPrecedence,
     Cell.str distinguisherMethod,
     Cell.str (translateTimestampSince now obj.creationTimestamp),
     Cell.str badPLRef], []⟩]

/-- The ordering relation under which `sort.Sort(fsSeq)` leaves the
sequence sorted: `a` may precede `b` when `Less(b, a)` is false. -/
def fsLE (a b : FlowSchema) : Prop := fsLess b a = false

instance : DecidableRel fsLE := fun a b => by
  unfold fsLE
  infer_instance

/-- Model of `printFlowSchemaList` (part_000 lines 2613-2628): `sort.Sort` promises
exactly a permutation of the input that is sorted with respect to `Less`
(it is not stable); `List.insertionSort fsLE` realizes that contract. The
sorted sequence is rendered in order, one row per schema. -/
def printFlowSchemaList (now : Nat) (items : List FlowSchema) : List TableRow :=
  ((List.insertionSort fsLE items).map (printFlowSchema now)).flatten

theorem fsLE_iff (a b : FlowSchema) :
    fsLE a b ↔ (a.matchingPrecedence < b.matchingPrecedence
      ∨ (a.matchingPrecedence = b.matchingPrecedence ∧ a.name ≤ b.name)) := by
  unfold fsLE fsLess
  by_cases h : b.matchingPrecedence = a.matchingPrecedence
  · rw [if_neg (by simp [h])]
    simp only [decide_eq_false_iff_not, not_lt]
    constructor
    · intro hle
      exact Or.inr ⟨h.symm, hle⟩
    · rintro (hlt | ⟨heq, hle⟩)
      · rw [h] at hlt
        exact absurd hlt (lt_irrefl _)
      · exact hle
  · rw [if_pos h]
    simp only [decide_eq_false_iff_not, not_lt]
    constructor
    · intro hle
      exact Or.inl (lt_of_le_of_ne hle (fun heq => h heq.symm))
    · rintro (hlt | ⟨heq, hle⟩)
      · exact le_of_lt hlt
      · exact absurd heq.symm h

instance : IsTotal FlowSchema fsLE where
  total a b := by
    rw [fsLE_iff, fsLE_iff]
    rcases lt_trichotomy a.matchingPrecedence b.matchingPrecedence with h | h | h
    · exact Or.inl (Or.inl h)
    · rcases le_total a.name b.name with hn | hn
      · exact Or.inl (Or.inr ⟨h, hn⟩)
      · exact Or.inr (Or.inr ⟨h.symm, hn⟩)
    · exact Or.inr (Or.inl h)

instance : IsTrans FlowSchema fsLE where
  trans a b c hab hbc := by
    rw [fsLE_iff] at hab hbc ⊢
    rcases hab with h1 | ⟨e1, n1⟩
    · rcases hbc with h2 | ⟨e2, _⟩
      · exact Or.inl (lt_trans h1 h2)
      · exact Or.inl (e2 ▸ h1)
    · rcases hbc with h2 | ⟨e2, n2⟩
      · exact Or.inl (e1 ▸ h2)
      · exact Or.inr ⟨e1.trans e2, le_trans n1 n2⟩

/-- C9: the rows of `printFlowSchemaList` come from a permutation of the
items that is sorted by ascending matching-precedence with ties broken by
ascending name, rendered only after sorting; concretely, of two schemas
with precedences [100, 50] and names ["b", "a"], the precedence-50 schema
renders first. -/
theorem claim_C9_flowschema_order :
    (∀ (now : Nat) (items : List FlowSchema),
      ∃ s : List FlowSchema, s.Perm items
        ∧ List.Pairwise (fun a b => a.matchingPrecedence < b.matchingPrecedence
            ∨ (a.matchingPrecedence = b.matchingPrecedence ∧ a.name ≤ b.name)) s
        ∧ printFlowSchemaList now items = (s.map (printFlowSchema now)).flatten)
      ∧ printFlowSchemaList 0
          [⟨"b", 0, "pl", 100, none, []⟩, ⟨"a", 0, "pl", 50, none, []⟩]
        = [⟨[Cell.str "a", Cell.str "pl", Cell.int 50, Cell.str "<none>",
             Cell.str "<unknown>", Cell.str "?"], []⟩,
           ⟨[Cell.str "b", Cell.str "pl", Cell.int 100, Cell.str "<none>",
             Cell.str "<unknown>", Cell.str "?"], []⟩] := by
  constructor
  · intro now items
    refine ⟨List.insertionSort fsLE items, List.perm_insertionSort fsLE items, ?_, rfl⟩
    have hs := List.sorted_insertionSort fsLE items
    exact hs.imp (fun h => (fsLE_iff _ _).mp h)
  · rfl

/-! ## Pod readiness state machine (`printPod`, part_000 lines 960-1145)

`corev1` data model, restricted to the fields `printPod` reads. String
constants: `corev1.PodSucceeded` = "Succeeded", `PodFailed` = "Failed",
`PodScheduled` = "PodScheduled", `PodReasonSchedulingGated` =
"SchedulingGated", `PodReady` = "Ready", `PodInitialized` = "Initialized",
`ConditionTrue` = "True", `ContainerRestartPolicyAlways` = "Always",
`metav1.RowCompleted` = "PodCompleted". -/

/-- Model of `corev1.Container` (fields read: `Name`, `RestartPolicy`, a pointer). -/
structure Container where
  name : String
  restartPolicy : Option String
deriving DecidableEq, Repr

/-- Model of `corev1.ContainerStateTerminated` (fields read). `exitCode` and
`signal` are Go `int32`; `finishedAt` a `metav1.Time`. -/
structure ContainerStateTerminated where
  exitCode : Int
  signal : Int
  reason : String
  finishedAt : Nat
deriving DecidableEq, Repr

/-- Model of `corev1.ContainerStateWaiting` (field read: `Reason`). -/
structure ContainerStateWaiting where
  reason : String
deriving DecidableEq, Repr

/-- Model of `corev1.ContainerState`: three pointers; `Running` carries no field the
engine reads. -/
structure ContainerState where
  waiting : Option ContainerStateWaiting
  running : Option Unit
  terminated : Option ContainerStateTerminated
deriving DecidableEq, Repr

/-- Model of `corev1.ContainerStatus` (fields read). `restartCount` is Go `int32`. -/
structure ContainerStatus where
  name : String
  ready : Bool
  restartCount : Int
  state : ContainerState
  lastTerminationState : ContainerState
  started : Option Bool
deriving DecidableEq, Repr

/-- Model of `corev1.PodCondition` (fields read: `Type`, `Status`, `Reason`). -/
structure PodCondition where
  type : String
  status : String
  reason : String
deriving DecidableEq, Repr

/-- Model of `corev1.PodSpec` (fields read by `printPod`). -/
structure PodSpec where
  initContainers : List Container
  containers : List Container
  nodeName : String
  readinessGates : List String
deriving DecidableEq, Repr

/-- Model of `corev1.PodStatus` (fields read by `printPod`). `podIPs` keeps only the
`IP` strings. -/
structure PodStatus where
  phase : String
  reason : String
  conditions : List PodCondition
  initContainerStatuses : List ContainerStatus
  containerStatuses : List ContainerStatus
  podIPs : List String
  nominatedNodeName : String
deriving DecidableEq, Repr

/-- Model of `corev1.Pod` (fields read by `printPod`). -/
structure Pod where
  name : String
  creationTimestamp : Nat
  deletionTimestamp : Option Nat
  spec : PodSpec
  status : PodStatus
deriving DecidableEq, Repr

/-- Model of `NodeUnreachablePodReason` (part_000 line 18). -/
def NodeUnreachablePodReason : String := "NodeLost"

/-- Model of `IsRestartableInitContainer` (part_000 lines 30-35): nil container or
nil restart policy give false. -/
def IsRestartableInitContainer : Option Container → Bool
  | none => false
  | some c =>
    match c.restartPolicy with
    | none => false
    | some p => p == "Always"

/-- Model of `IsPodPhaseTerminal` (part_000 lines 38-40). -/
def IsPodPhaseTerminal (phase : String) : Bool :=
  phase == "Failed" || phase == "Succeeded"

/-- Model of `hasPodReadyCondition` (part_000 lines 1138-1145). -/
def hasPodReadyCondition (conditions : List PodCondition) : Bool :=
  conditions.any (fun c => c.type == "Ready" && c.status == "True")

/-- Model of `isPodInitializedConditionTrue` (part_000 lines 2749-2758): stops at
the first condition of type "Initialized". -/
def isPodInitializedConditionTrue (status : PodStatus) : Bool :=
  match status.conditions.find? (fun c => c.type == "Initialized") with
  | some c => c.status == "True"
  | none => false

/-- The Go map `initContainers[name]` built from `pod.Spec.InitContainers`
keyed by name (later insertions overwrite earlier ones, hence the last
matching spec entry wins). -/
def lookupInitContainer (ics : List Container) (name : String) : Option Container :=
  ics.reverse.find? (fun c => c.name == name)

/-- Mutable state of the `printPod` scans: `restarts`,
`restartableInitContainerRestarts`, `lastRestartDate`,
`lastRestartableInitContainerRestartDate`, `readyContainers`, `reason`,
`initializing`, `hasRunning`. -/
structure PodScanState where
  restarts : Int
  restartableInitRestarts : Int
  lastRestartDate : Nat
  lastRestartableInitDate : Nat
  ready : Nat
  reason : String
  initializing : Bool
  hasRunning : Bool
deriving DecidableEq, Repr

/-- Shared accumulation at the top of both loop bodies:
`restarts += RestartCount` and the `LastTerminationState.Terminated`
latest-finish update (`metav1.Time.Before` is `<`). -/
def accumRestarts (st : PodScanState) (c : ContainerStatus) : PodScanState :=
  let st := { st with restarts := st.restarts + c.restartCount }
  match c.lastTerminationState.terminated with
  | some t =>
    if st.lastRestartDate < t.finishedAt then { st with lastRestartDate := t.finishedAt }
    else st
  | none => st

/-- The restartable-init tallies (part_000 lines 1008-1016). -/
def accumRestartableInit (st : PodScanState) (c : ContainerStatus) : PodScanState :=
  let st := { st with restartableInitRestarts := st.restartableInitRestarts + c.restartCount }
  match c.lastTerminationState.terminated with
  | some t =>
    if st.lastRestartableInitDate < t.finishedAt then
      { st with lastRestartableInitDate := t.finishedAt }
    else st
  | none => st

/-- The init-container loop of `printPod` (part_000 lines 998-1046): `i` is
the loop index, `totalInit = len(pod.Spec.InitContainers)`; the switch
either continues or sets a blocking reason, marks `initializing` and
breaks. -/
def initScan (ics : List Container) (totalInit : Nat) :
    Nat → List ContainerStatus → PodScanState → PodScanState
  | _, [], st => st
  | i, c :: rest, st =>
    let st := accumRestarts st c
    let st := if IsRestartableInitContainer (lookupInitContainer ics c.name) then
        accumRestartableInit st c
      else st
    if (match c.state.terminated with
        | some t => t.exitCode == 0
        | none => false) then
      initScan ics totalInit (i + 1) rest st
    else if IsRestartableInitContainer (lookupInitContainer ics c.name)
        && c.started == some true then
      let st := if c.ready then { st with ready := st.ready + 1 } else st
      initScan ics totalInit (i + 1) rest st
    else
      match c.state.terminated with
      | some t =>
        let r := if t.reason.length == 0 then
            (if t.signal != 0 then s!"Init:Signal:{t.signal}"
             else s!"Init:ExitCode:{t.exitCode}")
          else "Init:" ++ t.reason
        { st with reason := r, initializing := true }
      | none =>
        match c.state.waiting with
        | some w =>
          if w.reason.length > 0 && w.reason != "PodInitializing" then
            { st with reason := "Init:" ++ w.reason, initializing := true }
          else { st with reason := s!"Init:{i}/{totalInit}", initializing := true }
        | none => { st with reason := s!"Init:{i}/{totalInit}", initializing := true }

/-- Tail of the main-container loop body once the waiting-with-reason test
fell through (part_000 lines 1064-1075). -/
def mainScanTail (st : PodScanState) (c : ContainerStatus) : PodScanState :=
  match c.state.terminated with
  | some t =>
    if t.reason != "" then { st with reason := t.reason }
    else if t.signal != 0 then { st with reason := s!"Signal:{t.signal}" }
    else { st with reason := s!"ExitCode:{t.exitCode}" }
  | none =>
    if c.ready && c.state.running.isSome then
      { st with hasRunning := true, ready := st.ready + 1 }
    else st

/-- One iteration of the main-container loop (part_000 lines 1052-1076). -/
def mainScanStep (st : PodScanState) (c : ContainerStatus) : PodScanState :=
  let st := accumRestarts st c
  match c.state.waiting with
  | some w => if w.reason != "" then { st with reason := w.reason } else mainScanTail st c
  | none => mainScanTail st c

/-- The main-container loop runs from the last status down to the first;
a left fold over the reversed list. -/
def mainScan (cs : List ContainerStatus) (st : PodScanState) : PodScanState :=
  cs.reverse.foldl mainScanStep st

/-- Model of `reason` before any container scan (part_000 lines 968-979): the phase,
overridden by a non-empty `status.Reason`, overridden by "SchedulingGated"
when a PodScheduled condition carries that reason. -/
def podReasonPre (pod : Pod) : String :=
  let reason := if pod.status.reason != "" then pod.status.reason else pod.status.phase
  if pod.status.conditions.any
      (fun c => c.type == "PodScheduled" && c.reason == "SchedulingGated") then
    "SchedulingGated"
  else reason

/-- The state after the init-container loop of `printPod`. -/
def podInitScanOf (pod : Pod) : PodScanState :=
  initScan pod.spec.initContainers pod.spec.initContainers.length 0
    pod.status.initContainerStatuses
    ⟨0, 0, 0, 0, 0, podReasonPre pod, false, false⟩

/-- The state after the main-container loop of `printPod`, entered from the
init-scan state with the restart tallies reset to the restartable-init
tallies (part_000 lines 1049-1050). -/
def podMainScanOf (pod : Pod) : PodScanState :=
  let ist := podInitScanOf pod
  mainScan pod.status.containerStatuses
    { ist with restarts := ist.restartableInitRestarts,
               lastRestartDate := ist.lastRestartableInitDate }

/-- Scan result used by `printPod`: the main loop (with the terminal
"Completed"-override, part_000 lines 1078-1085) runs only when
initialization is not blocking or the Initialized condition is true. -/
def podScanResult (pod : Pod) : PodScanState :=
  let ist := podInitScanOf pod
  if !ist.initializing || isPodInitializedConditionTrue pod.status then
    let mst := podMainScanOf pod
    let r := if mst.reason == "Completed" && mst.hasRunning then
        (if hasPodReadyCondition pod.status.conditions then "Running" else "NotReady")
      else mst.reason
    { mst with reason := r }
  else ist

/-- Model of `podSuccessConditions` / `podFailedConditions` (part_000 lines 943-946)
attached by phase (part_000 lines 983-988). -/
def podRowConditions (phase : String) : List TableRowCondition :=
  if phase == "Succeeded" then
    [⟨"PodCompleted", "True", "Succeeded", "The pod has completed successfully."⟩]
  else if phase == "Failed" then
    [⟨"PodCompleted", "True", "Failed", "The pod failed."⟩]
  else []

/-- The readiness-gates cell (part_000 lines 1117-1132): for each gate the
first condition of its type is inspected. -/
def readinessGatesCell (pod : Pod) : String :=
  if pod.spec.readinessGates.length > 0 then
    let trueConditions := pod.spec.readinessGates.countP (fun g =>
      match pod.status.conditions.find? (fun c => c.type == g) with
      | some c => c.status == "True"
      | none => false)
    s!"{trueConditions}/{pod.spec.readinessGates.length}"
  else "<none>"

/-- Model of `printPod` (part_000 lines 960-1136). `totalContainers` counts main
containers plus restartable init containers; the deletion-timestamp
overrides are part_000 lines 1088-1092; the restart cell lines 1094-1097;
the cell layout lines 1099-1133. -/
def printPod (now : Nat) (pod : Pod) : List TableRow :=
  let totalContainers := pod.spec.containers.length
    + pod.spec.initContainers.countP (fun c => IsRestartableInitContainer (some c))
  let st := podScanResult pod
  let reason :=
    if !(mIsZero pod.deletionTimestamp)
        && pod.status.reason == NodeUnreachablePodReason then "Unknown"
    else if !(mIsZero pod.deletionTimestamp)
        && !(IsPodPhaseTerminal pod.status.phase) then "Terminating"
    else st.reason
  let restartsStr :=
    if st.restarts != 0 && st.lastRestartDate != 0 then
      s!"{st.restarts} ({translateTimestampSince now st.lastRestartDate} ago)"
    else toString st.restarts
  let podIP := match pod.status.podIPs.head? with
    | some ip => if ip == "" then "<none>" else ip
    | none => "<none>"
  let nodeName := if pod.spec.nodeName == "" then "<none>" else pod.spec.nodeName
  let nominatedNodeName :=
    if pod.status.nominatedNodeName == "" then "<none>" else pod.status.nominatedNodeName
  [⟨[Cell.str pod.name,
     Cell.str s!"{st.ready}/{totalContainers}",
     Cell.str reason,
     Cell.str restartsStr,
     Cell.str (translateTimestampSince now pod.creationTimestamp),
     Cell.str podIP,
     Cell.str nodeName,
     Cell.str nominatedNodeName,
     Cell.str (readinessGatesCell pod)],
    podRowConditions pod.status.phase⟩]

/-- Cell 2 ("Status") of the first row. -/
def rowStatusCell (rows : List TableRow) : Cell :=
  (rows.headD ⟨[], []⟩).cells.getD 2 (Cell.str "")

/-- Cell 3 ("Restarts") of the first row. -/
def rowRestartsCell (rows : List TableRow) : Cell :=
  (rows.headD ⟨[], []⟩).cells.getD 3 (Cell.str "")

/-! ## Claim C1 -/

/-- C1 counterexample: a Pod with phase Succeeded, one container still in a
Running state (and ready), and no true Ready condition, but no container
terminated with reason "Completed": `printPod` reports "Succeeded" — not
"NotReady" as the claim demands for every such pod. -/
theorem claim_C1_counterexample :
    (Pod.mk "p" 0 none ⟨[], [⟨"c", none⟩], "", []⟩
        ⟨"Succeeded", "", [],
         [], [⟨"c", true, 0, ⟨none, some (), none⟩, ⟨none, none, none⟩, none⟩],
         [], ""⟩).status.phase = "Succeeded"
      ∧ (Pod.mk "p" 0 none ⟨[], [⟨"c", none⟩], "", []⟩
          ⟨"Succeeded", "", [],
           [], [⟨"c", true, 0, ⟨none, some (), none⟩, ⟨none, none, none⟩, none⟩],
           [], ""⟩).status.containerStatuses.any
          (fun c => c.state.running.isSome) = true
      ∧ hasPodReadyCondition (Pod.mk "p" 0 none ⟨[], [⟨"c", none⟩], "", []⟩
          ⟨"Succeeded", "", [],
           [], [⟨"c", true, 0, ⟨none, some (), none⟩, ⟨none, none, none⟩, none⟩],
           [], ""⟩).status.conditions = false
      ∧ rowStatusCell (printPod 0 (Pod.mk "p" 0 none ⟨[], [⟨"c", none⟩], "", []⟩
          ⟨"Succeeded", "", [],
           [], [⟨"c", true, 0, ⟨none, some (), none⟩, ⟨none, none, none⟩, none⟩],
           [], ""⟩)) = Cell.str "Succeeded"
      ∧ Cell.str "Succeeded" ≠ Cell.str "NotReady" := by
  refine ⟨rfl, rfl, rfl, rfl, by decide⟩

/-- C1 (amended): for every Pod with phase Succeeded whose main-container
scan leaves the computed reason at the generic completed marker
"Completed" while at least one container is still reporting Running, and
whose Ready condition is not true, `printPod` reports "NotReady" (not
"Completed"), provided the pod is not a deleted node-lost pod. -/
theorem claim_C1_succeeded_notready (now : Nat) (pod : Pod)
    (hphase : pod.status.phase = "Succeeded")
    (hdel : mIsZero pod.deletionTimestamp = true
      ∨ pod.status.reason ≠ NodeUnreachablePodReason)
    (hguard : (!(podInitScanOf pod).initializing
      || isPodInitializedConditionTrue pod.status) = true)
    (hreason : (podMainScanOf pod).reason = "Completed")
    (hhas : (podMainScanOf pod).hasRunning = true)
    (hready : hasPodReadyCondition pod.status.conditions = false) :
    rowStatusCell (printPod now pod) = Cell.str "NotReady" := by
  have hst : (podScanResult pod).reason = "NotReady" := by
    unfold podScanResult
    simp only [hguard, if_true, hreason, hhas, hready]
    simp
  unfold rowStatusCell printPod
  dsimp only
  rcases hdel with hdel | hdel
  · simp [hdel, hphase, IsPodPhaseTerminal, hst]
  · simp only [hphase, IsPodPhaseTerminal, hst]
    simp [hst]
    exact fun _ => hdel

/-- Witness for C1: a Succeeded pod with a container terminated with reason
"Completed" and a ready running container, Ready condition absent. -/
theorem claim_C1_witness :
    (Pod.mk "p" 0 none ⟨[], [⟨"c1", none⟩, ⟨"c2", none⟩], "", []⟩
        ⟨"Succeeded", "", [], [],
         [⟨"c1", false, 0, ⟨none, none, some ⟨0, 0, "Completed", 1⟩⟩, ⟨none, none, none⟩, none⟩,
          ⟨"c2", true, 0, ⟨none, some (), none⟩, ⟨none, none, none⟩, none⟩],
         [], ""⟩).status.phase = "Succeeded"
      ∧ rowStatusCell (printPod 0 (Pod.mk "p" 0 none
          ⟨[], [⟨"c1", none⟩, ⟨"c2", none⟩], "", []⟩
          ⟨"Succeeded", "", [], [],
           [⟨"c1", false, 0, ⟨none, none, some ⟨0, 0, "Completed", 1⟩⟩, ⟨none, none, none⟩, none⟩,
            ⟨"c2", true, 0, ⟨none, some (), none⟩, ⟨none, none, none⟩, none⟩],
           [], ""⟩)) = Cell.str "NotReady" :=
  ⟨rfl,
    claim_C1_succeeded_notready 0
      (Pod.mk "p" 0 none ⟨[], [⟨"c1", none⟩, ⟨"c2", none⟩], "", []⟩
        ⟨"Succeeded", "", [], [],
         [⟨"c1", false, 0, ⟨none, none, some ⟨0, 0, "Completed", 1⟩⟩, ⟨none, none, none⟩, none⟩,
          ⟨"c2", true, 0, ⟨none, some (), none⟩, ⟨none, none, none⟩, none⟩],
         [], ""⟩)
      rfl (Or.inl rfl) rfl rfl rfl rfl⟩

/-! ## Claim C2 -/

/-- C2 counterexample: a Pod whose sole init container terminated with exit
code 2, signal 0 and empty reason, but whose conditions carry a true
Initialized condition and whose main container is waiting with reason
"ImagePullBackOff": the main-container scan IS evaluated (the Initialized
condition reopens it, part_000 line 1048) and `printPod` reports
"ImagePullBackOff", not "Init:ExitCode:2". -/
theorem claim_C2_counterexample :
    (Pod.mk "p" 0 none ⟨[⟨"i", none⟩], [⟨"c", none⟩], "", []⟩
        ⟨"Pending", "", [⟨"Initialized", "True", ""⟩],
         [⟨"i", false, 0, ⟨none, none, some ⟨2, 0, "", 0⟩⟩, ⟨none, none, none⟩, none⟩],
         [⟨"c", false, 0, ⟨some ⟨"ImagePullBackOff"⟩, none, none⟩, ⟨none, none, none⟩, none⟩],
         [], ""⟩).spec.initContainers.length = 1
      ∧ (Pod.mk "p" 0 none ⟨[⟨"i", none⟩], [⟨"c", none⟩], "", []⟩
          ⟨"Pending", "", [⟨"Initialized", "True", ""⟩],
           [⟨"i", false, 0, ⟨none, none, some ⟨2, 0, "", 0⟩⟩, ⟨none, none, none⟩, none⟩],
           [⟨"c", false, 0, ⟨some ⟨"ImagePullBackOff"⟩, none, none⟩, ⟨none, none, none⟩, none⟩],
           [], ""⟩).status.initContainerStatuses.map (fun c => c.state.terminated)
          = [some ⟨2, 0, "", 0⟩]
      ∧ rowStatusCell (printPod 0 (Pod.mk "p" 0 none
          ⟨[⟨"i", none⟩], [⟨"c", none⟩], "", []⟩
          ⟨"Pending", "", [⟨"Initialized", "True", ""⟩],
           [⟨"i", false, 0, ⟨none, none, some ⟨2, 0, "", 0⟩⟩, ⟨none, none, none⟩, none⟩],
           [⟨"c", false, 0, ⟨some ⟨"ImagePullBackOff"⟩, none, none⟩, ⟨none, none, none⟩, none⟩],
           [], ""⟩)) = Cell.str "ImagePullBackOff"
      ∧ Cell.str "ImagePullBackOff" ≠ Cell.str "Init:ExitCode:2" := by
  refine ⟨rfl, rfl, rfl, by decide⟩

/-- C2 (amended): for every Pod whose sole (non-restartable) init container
terminated with exit code 2, signal 0 and empty reason, whose Initialized
condition is not true and which has no deletion timestamp, `printPod`
reports "Init:ExitCode:2" for every configuration of the main container
statuses and of the remaining conditions: the initializing state
short-circuits the main-container scan. -/
theorem claim_C2_init_exit_code (now : Nat) (pod : Pod) (ic : Container)
    (s0 : ContainerStatus)
    (hics : pod.spec.initContainers = [ic])
    (hpol : IsRestartableInitContainer (some ic) = false)
    (hsts : pod.status.initContainerStatuses = [s0])
    (hterm : s0.state.terminated = some ⟨2, 0, "", s0.state.terminated.elim 0
      (fun t => t.finishedAt)⟩)
    (hinit : isPodInitializedConditionTrue pod.status = false)
    (hdel : mIsZero pod.deletionTimestamp = true) :
    rowStatusCell (printPod now pod) = Cell.str "Init:ExitCode:2" := by
  have hlk : IsRestartableInitContainer (lookupInitContainer [ic] s0.name) = false := by
    unfold lookupInitContainer
    cases h : List.find? (fun c => c.name == s0.name) [ic].reverse with
    | none => rfl
    | some c =>
      have hc : c = ic := by
        have := List.mem_of_find?_eq_some h
        simpa using this
      rw [hc]
      exact hpol
  have hist : (podInitScanOf pod).reason = "Init:ExitCode:2"
      ∧ (podInitScanOf pod).initializing = true := by
    unfold podInitScanOf
    rw [hics, hsts]
    unfold initScan
    rw [hterm]
    simp only [hlk, Bool.false_and, Bool.false_eq_true, if_false]
    norm_num
    rfl
  have hst : (podScanResult pod).reason = "Init:ExitCode:2" := by
    unfold podScanResult
    simp only [hist.2, hinit, Bool.not_true, Bool.or_false, Bool.false_eq_true, if_false]
    exact hist.1
  unfold rowStatusCell printPod
  dsimp only
  simp [hdel, hst]

/-- Witness for C2 at a concrete pod (main container waiting with a reason
that would otherwise win). -/
theorem claim_C2_witness :
    (Pod.mk "p" 0 none ⟨[⟨"i", none⟩], [⟨"c", none⟩], "", []⟩
        ⟨"Pending", "", [],
         [⟨"i", false, 0, ⟨none, none, some ⟨2, 0, "", 0⟩⟩, ⟨none, none, none⟩, none⟩],
         [⟨"c", false, 0, ⟨some ⟨"ImagePullBackOff"⟩, none, none⟩, ⟨none, none, none⟩, none⟩],
         [], ""⟩).spec.initContainers = [⟨"i", none⟩]
      ∧ rowStatusCell (printPod 0 (Pod.mk "p" 0 none
          ⟨[⟨"i", none⟩], [⟨"c", none⟩], "", []⟩
          ⟨"Pending", "", [],
           [⟨"i", false, 0, ⟨none, none, some ⟨2, 0, "", 0⟩⟩, ⟨none, none, none⟩, none⟩],
           [⟨"c", false, 0, ⟨some ⟨"ImagePullBackOff"⟩, none, none⟩, ⟨none, none, none⟩, none⟩],
           [], ""⟩)) = Cell.str "Init:ExitCode:2" :=
  ⟨rfl,
    claim_C2_init_exit_code 0
      (Pod.mk "p" 0 none ⟨[⟨"i", none⟩], [⟨"c", none⟩], "", []⟩
        ⟨"Pending", "", [],
         [⟨"i", false, 0, ⟨none, none, some ⟨2, 0, "", 0⟩⟩, ⟨none, none, none⟩, none⟩],
         [⟨"c", false, 0, ⟨some ⟨"ImagePullBackOff"⟩, none, none⟩, ⟨none, none, none⟩, none⟩],
         [], ""⟩)
      ⟨"i", none⟩
      ⟨"i", false, 0, ⟨none, none, some ⟨2, 0, "", 0⟩⟩, ⟨none, none, none⟩, none⟩
      rfl rfl rfl rfl rfl rfl⟩

/-! ## Claim C4 -/

/-- C4 counterexample: a Pod whose only container has restart count 0 but a
recorded last termination (finish time 5): the derived last-restart
timestamp is known (non-zero), yet the Restarts cell is the plain "0", not
the "<n> (<duration> ago)" form the claim demands whenever the timestamp is
known. -/
theorem claim_C4_counterexample :
    (podScanResult (Pod.mk "p" 0 none ⟨[], [⟨"c", none⟩], "", []⟩
        ⟨"Running", "", [], [],
         [⟨"c", true, 0, ⟨none, some (), none⟩, ⟨none, none, some ⟨0, 0, "", 5⟩⟩, none⟩],
         [], ""⟩)).lastRestartDate = 5
      ∧ rowRestartsCell (printPod 100 (Pod.mk "p" 0 none ⟨[], [⟨"c", none⟩], "", []⟩
          ⟨"Running", "", [], [],
           [⟨"c", true, 0, ⟨none, some (), none⟩, ⟨none, none, some ⟨0, 0, "", 5⟩⟩, none⟩],
           [], ""⟩)) = Cell.str "0"
      ∧ Cell.str "0"
          ≠ Cell.str s!"0 ({translateTimestampSince 100 5} ago)" := by
  refine ⟨rfl, rfl, by decide⟩

/-- C4 (amended): the Restarts cell is "<n> (<duration> ago)" exactly when
the derived restart count is non-zero AND the derived last-restart
timestamp is known (non-zero); otherwise it is the plain integer restart
count. -/
theorem claim_C4_restarts_cell (now : Nat) (pod : Pod) :
    rowRestartsCell (printPod now pod) =
      (if (podScanResult pod).restarts ≠ 0 ∧ (podScanResult pod).lastRestartDate ≠ 0 then
        Cell.str ((toString (podScanResult pod).restarts) ++ " ("
          ++ translateTimestampSince now (podScanResult pod).lastRestartDate ++ " ago)")
      else Cell.str (toString (podScanResult pod).restarts)) := by
  unfold rowRestartsCell printPod
  dsimp only
  by_cases h1 : (podScanResult pod).restarts = 0
  · simp [h1]
  · by_cases h2 : (podScanResult pod).lastRestartDate = 0
    · simp [h1, h2]
    · simp [h1, h2]
      rfl

end Koffee
